import Mathlib

/-!
Verification of the real-time data-aggregation engine of the HVAC dashboard
(`src/web_dashboard/static/js/dashboard.js`), shallowly embedded in Lean.

Timestamps are modelled as `Nat` (the millisecond value returned by
`Date.getTime()`; the code compares timestamps only through `getTime()` and
the numeric comparator `(a, b) => a - b`, so the embedding works directly
with those numbers).  Metric values are modelled as `Int`; no claim involves
arithmetic on them.  `this.sensorsData` is a plain JS object whose string
keys enumerate in insertion order, so it is embedded as an association list
in insertion order.  A handler that can throw a `TypeError` mid-way is
embedded as a function returning the post-state paired with a `Bool` that is
`true` when the handler ran to completion and `false` when it threw.
-/

/-- One element of a `this.sensorsData[sensorId]` buffer, as pushed by
`handleRealtimeData` (dashboard.js lines 256-261): timestamp plus the three
charted metrics. -/
structure Reading where
  timestamp : Nat
  temperature : Int
  humidity : Int
  co2 : Int
  deriving Repr, DecidableEq

/-- The inner `data` object of a realtime payload
(`{ temperature, humidity, co2, occupancy }`). -/
structure SensorFields where
  temperature : Int
  humidity : Int
  co2 : Int
  occupancy : Int
  deriving Repr, DecidableEq

/-- The `data` field of a `realtime_data` event: `{ data: {...}, system_status }`.
`fields` is `none` when the nested `data` object is missing. -/
structure RtInner where
  fields : Option SensorFields
  system_status : String
  deriving Repr, DecidableEq

/-- A `realtime_data` event payload `{ sensor_id, timestamp, data }`.
`data` is `none` when the payload lacks its `data` field. -/
structure RtPayload where
  sensor_id : String
  timestamp : Nat
  data : Option RtInner
  deriving Repr, DecidableEq

/-- `this.sensorsData`: string-keyed object of per-sensor buffers, keys in
insertion order. -/
abbrev Store := List (String × List Reading)

/-- Object property read `s[k]`: first entry with the key, if any. -/
def storeGet (s : Store) (k : String) : Option (List Reading) :=
  (s.find? (fun p => p.1 == k)).map Prod.snd

/-- Object property write `s[k] = v`: overwrite in place when the key exists
(key order unchanged), otherwise append the new key at the end. -/
def storeSet (s : Store) (k : String) (v : List Reading) : Store :=
  if (s.find? (fun p => p.1 == k)).isSome then
    s.map (fun p => if p.1 == k then (k, v) else p)
  else s ++ [(k, v)]

/-- The reading object built at dashboard.js lines 256-261 from a payload
(defaulting the metrics when the payload is malformed; those defaults are
never used under the well-formedness hypotheses). -/
def payloadReading (p : RtPayload) : Reading :=
  match p.data with
  | some i =>
    match i.fields with
    | some f => ⟨p.timestamp, f.temperature, f.humidity, f.co2⟩
    | none => ⟨p.timestamp, 0, 0, 0⟩
  | none => ⟨p.timestamp, 0, 0, 0⟩

/-- A realtime payload is malformed when `data` or `data.data` is missing; in
both cases `sensorData.data.temperature` at line 258 is a property access on
`undefined` and throws a `TypeError`. -/
def rtMalformed (p : RtPayload) : Bool :=
  match p.data with
  | none => true
  | some i => i.fields.isNone

/-- Lines 256-266: push the new reading, then `slice(-50)` when the buffer
exceeds 50 entries. -/
def recordReading (buf : List Reading) (r : Reading) : List Reading :=
  let b := buf ++ [r]
  if b.length > 50 then b.drop (b.length - 50) else b

/-- `handleRealtimeData` (lines 247-273).  Creates the buffer if absent
(lines 252-254), then evaluates the pushed object; a malformed payload throws
there (flag `false`), leaving the freshly created empty buffer behind.  The
DOM updates (`updateSensorCard`, `updateCharts`) do not touch the store. -/
def handleRealtimeData (p : RtPayload) (s : Store) : Store × Bool :=
  let s1 := if (storeGet s p.sensor_id).isNone then storeSet s p.sensor_id [] else s
  match p.data with
  | none => (s1, false)
  | some i =>
    match i.fields with
    | none => (s1, false)
    | some f =>
      let buf := (storeGet s1 p.sensor_id).getD []
      (storeSet s1 p.sensor_id
        (recordReading buf ⟨p.timestamp, f.temperature, f.humidity, f.co2⟩), true)

/-- Deliver a sequence of realtime events, keeping the store state. -/
def processAll (ps : List RtPayload) (s : Store) : Store :=
  ps.foldl (fun st p => (handleRealtimeData p st).1) s

/-- Folding `recordReading` over a reading sequence from an empty buffer. -/
def recordAll (rs : List Reading) : List Reading :=
  rs.foldl recordReading []

/-- The last `n` elements of a list (`slice(-n)` for a list longer than `n`,
the whole list otherwise). -/
def lastN (n : Nat) (l : List α) : List α :=
  l.drop (l.length - n)

/-- All timestamps across all buffers:
`Object.values(this.sensorsData).flat().map(d => d.timestamp)` (lines 495-497). -/
def allTimestamps (s : Store) : List Nat :=
  ((s.map Prod.snd).flatten).map Reading.timestamp

/-- `[...new Set(list)]`: keep the first occurrence of each value, in
iteration order; `seen` accumulates the values already emitted. -/
def jsDedupAux : List Nat → List Nat → List Nat
  | [], _ => []
  | x :: xs, seen =>
    if x ∈ seen then jsDedupAux xs seen else x :: jsDedupAux xs (x :: seen)

/-- `[...new Set(list)]` with an empty starting set. -/
def jsDedup (l : List Nat) : List Nat := jsDedupAux l []

/-- The timeline of `updateCharts` (lines 494-502): sort all timestamps
ascending, deduplicate via `Set`, keep the last 20. -/
def uniqueTimestamps (s : Store) : List Nat :=
  lastN 20 (jsDedup (List.insertionSort (· ≤ ·) (allTimestamps s)))

/-- Number of distinct timestamp values present in the store. -/
def distinctTimestampCount (s : Store) : Nat :=
  (allTimestamps s).toFinset.card

/-- The `sensorColors` palette (lines 23-26). -/
def sensorColors : List String :=
  ["#00d4ff", "#0099cc", "#66e0ff", "#33ccff", "#009bff", "#4dd8ff", "#1ac6ff", "#80e8ff"]

/-- `getSensorName` (lines 634-645): display-name table with fallback to the
raw identifier. -/
def getSensorName (sensorId : String) : String :=
  if sensorId = "hvac_office_a1" then "Office A1"
  else if sensorId = "hvac_office_a2" then "Office A2"
  else if sensorId = "hvac_meeting_room" then "Meeting Room"
  else if sensorId = "hvac_main_corridor" then "Corridor"
  else if sensorId = "hvac_kitchen" then "Kitchen"
  else if sensorId = "hvac_reception" then "Reception"
  else if sensorId = "hvac_restroom" then "Restroom"
  else sensorId

/-- One Chart.js dataset descriptor, restricted to the fields the claims are
about.  The temperature chart sets no `yAxisID`/`borderDash`; those fields
are `""`/`[]` there. -/
structure ChartDataset where
  label : String
  data : List Int
  borderColor : String
  backgroundColor : String
  yAxisID : String
  borderDash : List Nat
  deriving Repr, DecidableEq

/-- The filter applied to a buffer at lines 519-520 and 550-551:
`filter(d => timestamps.some(t => t.getTime() === d.timestamp.getTime()))`. -/
def filterToTimeline (buf : List Reading) (tl : List Nat) : List Reading :=
  buf.filter (fun d => tl.any (fun t => t == d.timestamp))

/-- The datasets built by `updateTemperatureChart` (lines 518-533):
`Object.keys(this.sensorsData).map((sensorId, index) => ...)`. -/
def temperatureChartDatasets (s : Store) (tl : List Nat) : List ChartDataset :=
  s.enum.map (fun p =>
    { label := getSensorName p.2.1
      data := (filterToTimeline p.2.2 tl).map Reading.temperature
      borderColor := sensorColors.getD (p.1 % sensorColors.length) ""
      backgroundColor := sensorColors.getD (p.1 % sensorColors.length) "" ++ "20"
      yAxisID := ""
      borderDash := [] })

/-- The humidity group of `updateHumidityChart` (lines 549-565). -/
def humidityDatasets (s : Store) (tl : List Nat) : List ChartDataset :=
  s.enum.map (fun p =>
    { label := getSensorName p.2.1 ++ " - Humidity"
      data := (filterToTimeline p.2.2 tl).map Reading.humidity
      borderColor := sensorColors.getD (p.1 % sensorColors.length) ""
      backgroundColor := sensorColors.getD (p.1 % sensorColors.length) "" ++ "20"
      yAxisID := "y"
      borderDash := [] })

/-- The CO2 group of `updateHumidityChart` (lines 567-577). -/
def co2Datasets (s : Store) (tl : List Nat) : List ChartDataset :=
  s.enum.map (fun p =>
    { label := getSensorName p.2.1 ++ " - CO₂"
      data := (filterToTimeline p.2.2 tl).map Reading.co2
      borderColor := sensorColors.getD (p.1 % sensorColors.length) ""
      backgroundColor := sensorColors.getD (p.1 % sensorColors.length) "" ++ "40"
      yAxisID := "y1"
      borderDash := [5, 5] })

/-- Line 581: `[...humidityDatasets, ...co2Datasets]`. -/
def humidityChartDatasets (s : Store) (tl : List Nat) : List ChartDataset :=
  humidityDatasets s tl ++ co2Datasets s tl

/-- One entry of the `statusConfigs` table in `updateSystemStatus`
(lines 608-624).  `cssClass` models the `class` property. -/
structure StatusConfig where
  text : String
  cssClass : String
  icon : String
  deriving Repr, DecidableEq

/-- The `NORMAL` entry of `statusConfigs`. -/
def normalStatusConfig : StatusConfig :=
  ⟨"All Systems Operating Normally", "system-status status-normal", "fa-check-circle"⟩

/-- The `WARNING` entry of `statusConfigs`. -/
def warningStatusConfig : StatusConfig :=
  ⟨"Minor Issues Detected", "system-status status-warning", "fa-exclamation-triangle"⟩

/-- The `CRITICAL` entry of `statusConfigs`. -/
def criticalStatusConfig : StatusConfig :=
  ⟨"Critical Issues Require Attention", "system-status status-critical", "fa-exclamation-circle"⟩

/-- The `statusConfigs[status]` lookup. -/
def statusConfigLookup (status : String) : Option StatusConfig :=
  if status = "NORMAL" then some normalStatusConfig
  else if status = "WARNING" then some warningStatusConfig
  else if status = "CRITICAL" then some criticalStatusConfig
  else none

/-- `updateSystemStatus` (lines 604-629): the configuration actually applied
to the DOM, `statusConfigs[status] || statusConfigs['NORMAL']` (line 626). -/
def updateSystemStatus (status : String) : StatusConfig :=
  (statusConfigLookup status).getD normalStatusConfig

/-- The dashboard's connection flag `this.isConnected`; `true` is the LIVE
state of the liveness monitor, `false` is STALE. -/
structure ConnState where
  isConnected : Bool
  deriving Repr, DecidableEq

/-- Events driving the liveness monitor: the socket `connect` and
`disconnect` notifications (lines 70-80) and one firing of the 30-second
health-check interval (lines 773-780). -/
inductive DashEvent where
  | connectEv
  | disconnectEv
  | tick
  deriving Repr, DecidableEq

/-- One step of the liveness state machine.  The returned `Bool` is `true`
exactly when the step invokes `loadInitialData` (the bulk resync): the
connect handler only sets `isConnected = true`, the disconnect handler only
sets `isConnected = false`, and the interval callback calls
`loadInitialData()` precisely when `!this.isConnected`. -/
def dashStep : ConnState → DashEvent → ConnState × Bool
  | _, .connectEv => (⟨true⟩, false)
  | _, .disconnectEv => (⟨false⟩, false)
  | st, .tick => (st, !st.isConnected)

/-- The interval period of `startHealthCheck` (line 779), in milliseconds. -/
def healthCheckIntervalMs : Nat := 30000

/-- An alert record as carried by `new_alert` payloads and the bulk fetch;
`severity` is `none` when the field is missing. -/
structure AlertRec where
  id : Nat
  severity : Option String
  message : String
  deriving Repr, DecidableEq

/-- Modelled from the spec: `addNewAlert` is called at line 279 but is not
defined anywhere in the repository source; spec section 4.4 says new alerts
always prepend (most recent first), so the model prepends. -/
def addNewAlert (alerts : List AlertRec) (a : AlertRec) : List AlertRec :=
  a :: alerts

/-- `handleNewAlert` (lines 278-290): after `addNewAlert`, line 280 evaluates
`alert.severity.toLowerCase()`, which throws when `severity` is missing
(flag `false`). -/
def handleNewAlert (alerts : List AlertRec) (a : AlertRec) : List AlertRec × Bool :=
  let l := addNewAlert alerts a
  match a.severity with
  | none => (l, false)
  | some _ => (l, true)

/-- One sensor entry of an `initial_data` payload, restricted to the fields
relevant to state (the rest feeds DOM rendering only). -/
structure SensorInfo where
  sensor_id : String
  name : String
  deriving Repr, DecidableEq

/-- The `initial_data` bulk-resync payload (lines 229-242): optional sensor
list, optional system status, optional alert list. -/
structure InitialData where
  sensors : Option (List SensorInfo)
  system_status : Option String
  alerts : Option (List AlertRec)
  deriving Repr, DecidableEq

/-- The engine state touched by a bulk resync: the per-sensor buffers and
the alert list. -/
structure DashState where
  sensorsData : Store
  alertList : List AlertRec
  deriving Repr, DecidableEq

/-- Modelled from the spec: `updateAlerts` is called at lines 217 and 240 but
is not defined anywhere in the repository source; the spec says resync
replaces displayed state, so the model replaces the alert list. -/
def updateAlerts (st : DashState) (as' : List AlertRec) : DashState :=
  { st with alertList := as' }

/-- `handleInitialData` (lines 229-242).  `renderSensors`,
`renderBuildingMap` and `updateSystemStatus` write only to the DOM; the only
engine state the handler can touch is the alert list via `updateAlerts`.
In particular `this.sensorsData` is never read or written here. -/
def handleInitialData (d : InitialData) (st : DashState) : DashState :=
  match d.alerts with
  | some as' => updateAlerts st as'
  | none => st

/-- Concrete store used for the timeline-projection claims: sensor `"a"` has
one reading at instant 1, sensor `"b"` has readings at instants 1 and 2. -/
def cs1 : Store :=
  [("a", [⟨1, 10, 20, 30⟩]), ("b", [⟨1, 11, 21, 31⟩, ⟨2, 12, 22, 32⟩])]

/-- A realtime payload whose `data` field is missing. -/
def malformedPayload : RtPayload := ⟨"z", 5, none⟩

/-- Two realtime events for sensor `"a"`: the second carries an older
timestamp than the first (late arrival). -/
def latePayloads : List RtPayload :=
  [⟨"a", 2, some ⟨some ⟨10, 20, 30, 1⟩, "NORMAL"⟩⟩,
   ⟨"a", 1, some ⟨some ⟨11, 21, 31, 1⟩, "NORMAL"⟩⟩]

/-- A bulk-resync payload whose sensor list is present but empty. -/
def emptySensorsPayload : InitialData := ⟨some [], none, none⟩

/-- An engine state holding one non-empty buffer and no alerts. -/
def stWithBuffer : DashState := ⟨[("a", [⟨1, 10, 20, 30⟩])], []⟩

/-- Two readings already in ascending timestamp order. -/
def sortedReadings : List Reading := [⟨1, 10, 20, 30⟩, ⟨2, 11, 21, 31⟩]

/-- First of two stores with the same sensors in the same first-seen order
but different buffer contents. -/
def cs8a : Store := [("a", [⟨1, 10, 20, 30⟩]), ("b", [])]

/-- Second of two stores with the same sensors in the same first-seen order
but different buffer contents. -/
def cs8b : Store := [("a", []), ("b", [⟨7, 70, 71, 72⟩])]

/-- Looking a key up in a store whose entries all fail the key test
returns `none`, so appending the fresh pair finds exactly it. -/
theorem storeGet_append_single (s : Store) (k : String) (v : List Reading)
    (h : s.find? (fun p => p.1 == k) = none) :
    storeGet (s ++ [(k, v)]) k = some v := by
  simp [storeGet, List.find?_append, h]

/-- Overwriting the matching entries in place makes the first match carry the
new value. -/
theorem storeGet_map_overwrite (s : Store) (k : String) (v : List Reading)
    (h : (s.find? (fun p => p.1 == k)).isSome) :
    storeGet (s.map (fun p => if p.1 == k then (k, v) else p)) k = some v := by
  induction s with
  | nil => simp at h
  | cons a t ih =>
    by_cases hak : a.1 = k
    · have hmap : (a :: t).map (fun p => if p.1 == k then (k, v) else p)
          = (k, v) :: t.map (fun p => if p.1 == k then (k, v) else p) := by
        simp [hak]
      rw [hmap]
      unfold storeGet
      rw [List.find?_cons_of_pos _ (by simp)]
      rfl
    · have h' : (t.find? (fun p => p.1 == k)).isSome := by
        rw [List.find?_cons_of_neg _ (by simp [hak])] at h
        exact h
      have hthis := ih h'
      have hmap : (a :: t).map (fun p => if p.1 == k then (k, v) else p)
          = a :: t.map (fun p => if p.1 == k then (k, v) else p) := by
        simp [hak]
      rw [hmap]
      unfold storeGet at hthis ⊢
      rw [List.find?_cons_of_neg _ (by simp [hak])]
      exact hthis

/-- Reading back the key just written by `storeSet` yields the new value. -/
theorem storeGet_storeSet_self (s : Store) (k : String) (v : List Reading) :
    storeGet (storeSet s k v) k = some v := by
  unfold storeSet
  by_cases h : (s.find? (fun p => p.1 == k)).isSome
  · rw [if_pos h]
    exact storeGet_map_overwrite s k v h
  · rw [if_neg h]
    exact storeGet_append_single s k v (Option.not_isSome_iff_eq_none.mp h)

/-- Writing one key leaves every other key's lookup unchanged. -/
theorem storeGet_storeSet_ne (s : Store) (k k' : String) (v : List Reading)
    (h : k' ≠ k) :
    storeGet (storeSet s k v) k' = storeGet s k' := by
  unfold storeSet
  by_cases hf : (s.find? (fun p => p.1 == k)).isSome
  · rw [if_pos hf]
    clear hf
    induction s with
    | nil => rfl
    | cons a t ih =>
      by_cases hak : a.1 = k
      · have hmap : (a :: t).map (fun p => if p.1 == k then (k, v) else p)
            = (k, v) :: t.map (fun p => if p.1 == k then (k, v) else p) := by
          simp [hak]
        rw [hmap]
        unfold storeGet
        rw [List.find?_cons_of_neg _ (by simp [Ne.symm h]),
          List.find?_cons_of_neg _ (by simp [hak ▸ Ne.symm h])]
        exact ih
      · have hmap : (a :: t).map (fun p => if p.1 == k then (k, v) else p)
            = a :: t.map (fun p => if p.1 == k then (k, v) else p) := by
          simp [hak]
        rw [hmap]
        by_cases hak' : a.1 = k'
        · unfold storeGet
          rw [List.find?_cons_of_pos _ (by simp [hak']),
            List.find?_cons_of_pos _ (by simp [hak'])]
        · unfold storeGet at ih ⊢
          rw [List.find?_cons_of_neg _ (by simp [hak']),
            List.find?_cons_of_neg _ (by simp [hak'])]
          exact ih
  · rw [if_neg hf]
    unfold storeGet
    rw [List.find?_append]
    have : List.find? (fun p => p.1 == k') [(k, v)] = none := by
      simp [List.find?_cons, Ne.symm h]
    rw [this, Option.or_none]

/-- The retained suffix has at most `n` elements. -/
theorem length_lastN (n : Nat) (l : List α) : (lastN n l).length = min n l.length := by
  simp only [lastN, List.length_drop]
  omega

/-- A list no longer than `n` is kept whole by `lastN`. -/
theorem lastN_of_le {n : Nat} {l : List α} (h : l.length ≤ n) : lastN n l = l := by
  simp [lastN, Nat.sub_eq_zero_of_le h]

/-- Folding one more reading commutes with the fold over the prefix. -/
theorem recordAll_append (rs : List Reading) (r : Reading) :
    recordAll (rs ++ [r]) = recordReading (recordAll rs) r := by
  simp [recordAll, List.foldl_append]

/-- A push onto a buffer of at most 49 readings is kept untrimmed. -/
theorem recordReading_small (buf : List Reading) (r : Reading)
    (h : buf.length ≤ 49) :
    recordReading buf r = buf ++ [r] := by
  simp only [recordReading]
  rw [if_neg (by simp only [List.length_append, List.length_cons, List.length_nil]; omega)]

/-- A push onto a buffer of at least 50 readings drops down to the last 50. -/
theorem recordReading_big (buf : List Reading) (r : Reading)
    (h : 50 ≤ buf.length) :
    recordReading buf r = (buf ++ [r]).drop (buf.length + 1 - 50) := by
  simp only [recordReading]
  rw [if_pos (by simp only [List.length_append, List.length_cons, List.length_nil]; omega)]
  congr 1
  simp only [List.length_append, List.length_cons, List.length_nil]

/-- Appending then trimming to 50 keeps exactly the last 50 insertions. -/
theorem recordAll_eq_lastN (rs : List Reading) : recordAll rs = lastN 50 rs := by
  induction rs using List.reverseRecOn with
  | nil => rfl
  | append_singleton rs r ih =>
    rw [recordAll_append, ih]
    by_cases h : rs.length ≤ 49
    · rw [lastN_of_le (show rs.length ≤ 50 by omega), recordReading_small rs r h,
        lastN_of_le (show (rs ++ [r]).length ≤ 50 by
          simp only [List.length_append, List.length_cons, List.length_nil]; omega)]
    · push_neg at h
      have hlen : (lastN 50 rs).length = 50 := by rw [length_lastN]; omega
      rw [recordReading_big _ r (le_of_eq hlen.symm), hlen]
      rw [List.drop_append_of_le_length (by rw [hlen]; omega)]
      unfold lastN
      rw [List.drop_drop]
      rw [List.length_append, List.length_cons, List.length_nil,
        List.drop_append_of_le_length (by omega)]
      have hidx : rs.length - 50 + (50 + 1 - 50) = rs.length + (0 + 1) - 50 := by omega
      rw [hidx]

/-- Membership in the Set-style dedup: kept iff present and not already seen. -/
theorem mem_jsDedupAux (l : List Nat) :
    ∀ (seen : List Nat) (a : Nat),
      a ∈ jsDedupAux l seen ↔ a ∈ l ∧ a ∉ seen := by
  induction l with
  | nil => intro seen a; simp [jsDedupAux]
  | cons x xs ih =>
    intro seen a
    by_cases hx : x ∈ seen
    · rw [jsDedupAux, if_pos hx, ih]
      constructor
      · rintro ⟨h1, h2⟩
        exact ⟨List.mem_cons_of_mem x h1, h2⟩
      · rintro ⟨h1, h2⟩
        rcases List.mem_cons.mp h1 with rfl | h1
        · exact absurd hx h2
        · exact ⟨h1, h2⟩
    · rw [jsDedupAux, if_neg hx]
      constructor
      · intro hmem
        rcases List.mem_cons.mp hmem with rfl | hmem
        · exact ⟨List.mem_cons_self a xs, hx⟩
        · rcases (ih (x :: seen) a).mp hmem with ⟨h1, h2⟩
          refine ⟨List.mem_cons_of_mem x h1, fun hc => h2 (List.mem_cons_of_mem x hc)⟩
      · rintro ⟨h1, h2⟩
        rcases List.mem_cons.mp h1 with rfl | h1
        · exact List.mem_cons_self a _
        · by_cases hax : a = x
          · exact hax ▸ List.mem_cons_self x _
          · refine List.mem_cons_of_mem x ((ih (x :: seen) a).mpr ⟨h1, ?_⟩)
            intro hc
            rcases List.mem_cons.mp hc with h | h
            · exact hax h
            · exact h2 h

/-- The dedup output is a sublist of the input. -/
theorem jsDedupAux_sublist (l : List Nat) :
    ∀ seen, (jsDedupAux l seen).Sublist l := by
  induction l with
  | nil => intro seen; simp [jsDedupAux]
  | cons x xs ih =>
    intro seen
    by_cases hx : x ∈ seen
    · rw [jsDedupAux, if_pos hx]
      exact (ih seen).cons x
    · rw [jsDedupAux, if_neg hx]
      exact (ih (x :: seen)).cons₂ x

/-- The dedup output has no duplicates. -/
theorem jsDedupAux_nodup (l : List Nat) :
    ∀ seen, (jsDedupAux l seen).Nodup := by
  induction l with
  | nil => intro seen; simp [jsDedupAux]
  | cons x xs ih =>
    intro seen
    by_cases hx : x ∈ seen
    · rw [jsDedupAux, if_pos hx]
      exact ih seen
    · rw [jsDedupAux, if_neg hx]
      rw [List.nodup_cons]
      refine ⟨fun hc => ?_, ih _⟩
      exact ((mem_jsDedupAux xs (x :: seen) x).mp hc).2 (List.mem_cons_self x seen)

/-- Dedup does not change membership. -/
theorem mem_jsDedup {l : List Nat} {a : Nat} : a ∈ jsDedup l ↔ a ∈ l := by
  simp [jsDedup, mem_jsDedupAux]

/-- Deduplicating a `≤`-sorted list yields a strictly `<`-sorted list. -/
theorem jsDedup_sorted {l : List Nat} (h : l.Sorted (· ≤ ·)) :
    (jsDedup l).Sorted (· < ·) := by
  have hle : (jsDedup l).Sorted (· ≤ ·) :=
    List.Pairwise.sublist (jsDedupAux_sublist l []) h
  have hnd : (jsDedup l).Nodup := jsDedupAux_nodup l []
  exact (List.Pairwise.and hle hnd).imp (fun h' => lt_of_le_of_ne h'.1 h'.2)

/-- A well-formed realtime event appends its reading to the sensor's buffer
(creating it first when absent) and trims with `recordReading`; the handler
completes normally. -/
theorem handleRealtimeData_wellformed (p : RtPayload) (s : Store)
    (hw : rtMalformed p = false) :
    storeGet (handleRealtimeData p s).1 p.sensor_id =
      some (recordReading ((storeGet s p.sensor_id).getD []) (payloadReading p)) ∧
    (handleRealtimeData p s).2 = true := by
  rcases hp : p.data with _ | i
  · simp [rtMalformed, hp] at hw
  · rcases hf : i.fields with _ | f
    · simp [rtMalformed, hp, hf] at hw
    · by_cases hg : (storeGet s p.sensor_id).isNone
      · have hnone : storeGet s p.sensor_id = none := Option.isNone_iff_eq_none.mp hg
        simp [handleRealtimeData, hp, hf, hnone, storeGet_storeSet_self, payloadReading]
      · have hsome : ¬ (storeGet s p.sensor_id).isNone = true := hg
        simp [handleRealtimeData, hp, hf, hsome, storeGet_storeSet_self, payloadReading]

/-- Processing a sequence of well-formed events for one sensor folds
`recordReading` over their readings, starting from the current buffer. -/
theorem processAll_buffer (k : String) :
    ∀ (ps : List RtPayload) (s : Store),
      (∀ p ∈ ps, p.sensor_id = k ∧ rtMalformed p = false) →
      (storeGet (processAll ps s) k).getD [] =
        (ps.map payloadReading).foldl recordReading ((storeGet s k).getD []) := by
  intro ps
  induction ps with
  | nil => intro s _; rfl
  | cons p t ih =>
    intro s hps
    have hp := hps p (List.mem_cons_self p t)
    have step := handleRealtimeData_wellformed p s hp.2
    have hdef : processAll (p :: t) s = processAll t ((handleRealtimeData p s).1) := rfl
    rw [hdef, ih _ (fun q hq => hps q (List.mem_cons_of_mem p hq))]
    rw [hp.1] at step
    rw [step.1]
    simp

/-- Claim C2: for every sequence of realtime reading events delivered for one
sensor, after each record operation the sensor's buffer has length at most 50
and its contents equal the most recent `min(k, 50)` readings inserted for
that sensor, in insertion order. -/
theorem buffer_bounded_last_fifty (ps : List RtPayload) (k : String)
    (hk : ∀ p ∈ ps, p.sensor_id = k) (hw : ∀ p ∈ ps, rtMalformed p = false) :
    ((storeGet (processAll ps []) k).getD []).length ≤ 50 ∧
    (storeGet (processAll ps []) k).getD [] = lastN 50 (ps.map payloadReading) := by
  have h := processAll_buffer k ps [] (fun p hp => ⟨hk p hp, hw p hp⟩)
  have hsg : storeGet ([] : Store) k = none := rfl
  rw [hsg] at h
  simp only [Option.getD_none] at h
  have h2 : (ps.map payloadReading).foldl recordReading []
      = recordAll (ps.map payloadReading) := rfl
  rw [h, h2, recordAll_eq_lastN]
  refine ⟨?_, rfl⟩
  rw [length_lastN]
  omega

/-- Witness for C2 at a concrete two-event run for sensor `"a"`. -/
theorem buffer_bounded_last_fifty_witness :
    ((storeGet (processAll latePayloads []) "a").getD []).length ≤ 50 ∧
    (storeGet (processAll latePayloads []) "a").getD [] =
      lastN 50 (latePayloads.map payloadReading) :=
  buffer_bounded_last_fifty latePayloads "a" (by decide) (by decide)

/-- Counterexample to C7: a reading at instant 2 followed by a late reading
at instant 1 leaves the buffer in arrival order `[t=2, t=1]`, which is not
sorted by timestamp ascending. -/
theorem late_arrival_unsorted_counterexample :
    ¬ List.Sorted (fun a b : Reading => a.timestamp ≤ b.timestamp)
        ((storeGet (processAll latePayloads []) "a").getD []) := by
  decide

/-- Claim C7 amended: the buffer preserves arrival order (every record
appends at the tail, so the new reading is always the last element), and the
buffer is sorted by timestamp ascending only when the readings arrive in
nondecreasing timestamp order. -/
theorem buffer_insertion_order (rs : List Reading)
    (h : List.Sorted (fun a b : Reading => a.timestamp ≤ b.timestamp) rs) :
    List.Sorted (fun a b : Reading => a.timestamp ≤ b.timestamp) (recordAll rs) ∧
    ∀ (buf : List Reading) (r : Reading), (recordReading buf r).getLast? = some r := by
  constructor
  · rw [recordAll_eq_lastN]
    exact List.Pairwise.sublist (List.drop_sublist _ _) h
  · intro buf r
    by_cases hb : buf.length ≤ 49
    · rw [recordReading_small buf r hb]
      exact List.getLast?_concat _
    · push_neg at hb
      rw [recordReading_big buf r (by omega)]
      rw [List.drop_append_of_le_length (by omega)]
      exact List.getLast?_concat _

/-- Witness for the amended C7 at a concrete sorted arrival sequence. -/
theorem buffer_insertion_order_witness :
    List.Sorted (fun a b : Reading => a.timestamp ≤ b.timestamp)
      (recordAll sortedReadings) ∧
    ∀ (buf : List Reading) (r : Reading), (recordReading buf r).getLast? = some r :=
  buffer_insertion_order sortedReadings (by decide)

/-- Claim C3: for every non-empty store, the timeline is strictly ascending,
deduplicated, of length `min 20 (number of distinct instants)`, drawn from
the stored timestamps, keeps only the most recent distinct instants (every
omitted instant is older than every kept one), and keeps all instants when
fewer than 20 distinct ones exist. -/
theorem timeline_recent_sorted (s : Store) (hne : s ≠ []) :
    List.Sorted (· < ·) (uniqueTimestamps s) ∧
    (uniqueTimestamps s).Nodup ∧
    (uniqueTimestamps s).length = min 20 (distinctTimestampCount s) ∧
    (∀ t ∈ uniqueTimestamps s, t ∈ allTimestamps s) ∧
    (∀ t ∈ allTimestamps s, t ∉ uniqueTimestamps s →
      ∀ u ∈ uniqueTimestamps s, t < u) ∧
    (distinctTimestampCount s ≤ 20 → ∀ t ∈ allTimestamps s, t ∈ uniqueTimestamps s) := by
  have hUsorted : (jsDedup (List.insertionSort (· ≤ ·) (allTimestamps s))).Sorted (· < ·) :=
    jsDedup_sorted (List.sorted_insertionSort (· ≤ ·) (allTimestamps s))
  have hUnodup : (jsDedup (List.insertionSort (· ≤ ·) (allTimestamps s))).Nodup :=
    jsDedupAux_nodup _ []
  have hUmem : ∀ a, a ∈ jsDedup (List.insertionSort (· ≤ ·) (allTimestamps s))
      ↔ a ∈ allTimestamps s := by
    intro a
    rw [mem_jsDedup, (List.perm_insertionSort (· ≤ ·) (allTimestamps s)).mem_iff]
  set U := jsDedup (List.insertionSort (· ≤ ·) (allTimestamps s)) with hU
  have hUlen : U.length = distinctTimestampCount s := by
    rw [distinctTimestampCount, ← List.toFinset_card_of_nodup hUnodup]
    congr 1
    exact Finset.ext (fun a => by
      rw [List.mem_toFinset, List.mem_toFinset]
      exact hUmem a)
  have hT : uniqueTimestamps s = U.drop (U.length - 20) := by
    rw [hU]
    rfl
  have hTsub : (uniqueTimestamps s).Sublist U := by
    rw [hT]
    exact List.drop_sublist _ _
  refine ⟨?_, ?_, ?_, ?_, ?_, ?_⟩
  · exact List.Pairwise.sublist hTsub hUsorted
  · exact List.Pairwise.sublist hTsub hUnodup
  · rw [hT, List.length_drop, hUlen]
    omega
  · intro t ht
    exact (hUmem t).mp (hTsub.subset ht)
  · intro t htL htT u huT
    have htU : t ∈ U := (hUmem t).mpr htL
    have hpw : List.Pairwise (· < ·)
        (U.take (U.length - 20) ++ U.drop (U.length - 20)) := by
      rw [List.take_append_drop]
      exact hUsorted
    have h3 := (List.pairwise_append.mp hpw).2.2
    have htU' : t ∈ U.take (U.length - 20) ++ U.drop (U.length - 20) := by
      rw [List.take_append_drop]
      exact htU
    have htTake : t ∈ U.take (U.length - 20) := by
      rcases List.mem_append.mp htU' with hmem | hmem
      · exact hmem
      · rw [← hT] at hmem
        exact absurd hmem htT
    have huD : u ∈ U.drop (U.length - 20) := by
      rw [← hT]
      exact huT
    exact h3 t htTake u huD
  · intro hle t ht
    have h0 : U.length - 20 = 0 := by rw [hUlen]; omega
    rw [hT, h0, List.drop_zero]
    exact (hUmem t).mpr ht

/-- Witness for C3 at a concrete two-sensor store with a shared instant. -/
theorem timeline_recent_sorted_witness :
    List.Sorted (· < ·) (uniqueTimestamps cs1) ∧
    (uniqueTimestamps cs1).Nodup ∧
    (uniqueTimestamps cs1).length = min 20 (distinctTimestampCount cs1) ∧
    (∀ t ∈ uniqueTimestamps cs1, t ∈ allTimestamps cs1) ∧
    (∀ t ∈ allTimestamps cs1, t ∉ uniqueTimestamps cs1 →
      ∀ u ∈ uniqueTimestamps cs1, t < u) ∧
    (distinctTimestampCount cs1 ≤ 20 →
      ∀ t ∈ allTimestamps cs1, t ∈ uniqueTimestamps cs1) :=
  timeline_recent_sorted cs1 (by decide)

/-- Indexing into the temperature datasets mirrors indexing into the store. -/
theorem temperatureChartDatasets_getElem? (s : Store) (tl : List Nat) (i : Nat) :
    (temperatureChartDatasets s tl)[i]? =
      (s[i]?).map (fun q =>
        { label := getSensorName q.1
          data := (filterToTimeline q.2 tl).map Reading.temperature
          borderColor := sensorColors.getD (i % sensorColors.length) ""
          backgroundColor := sensorColors.getD (i % sensorColors.length) "" ++ "20"
          yAxisID := ""
          borderDash := [] }) := by
  simp only [temperatureChartDatasets, List.getElem?_map, List.getElem?_enum]
  cases s[i]? <;> rfl

/-- Indexing into the humidity datasets mirrors indexing into the store. -/
theorem humidityDatasets_getElem? (s : Store) (tl : List Nat) (i : Nat) :
    (humidityDatasets s tl)[i]? =
      (s[i]?).map (fun q =>
        { label := getSensorName q.1 ++ " - Humidity"
          data := (filterToTimeline q.2 tl).map Reading.humidity
          borderColor := sensorColors.getD (i % sensorColors.length) ""
          backgroundColor := sensorColors.getD (i % sensorColors.length) "" ++ "20"
          yAxisID := "y"
          borderDash := [] }) := by
  simp only [humidityDatasets, List.getElem?_map, List.getElem?_enum]
  cases s[i]? <;> rfl

/-- Indexing into the CO2 datasets mirrors indexing into the store. -/
theorem co2Datasets_getElem? (s : Store) (tl : List Nat) (i : Nat) :
    (co2Datasets s tl)[i]? =
      (s[i]?).map (fun q =>
        { label := getSensorName q.1 ++ " - CO₂"
          data := (filterToTimeline q.2 tl).map Reading.co2
          borderColor := sensorColors.getD (i % sensorColors.length) ""
          backgroundColor := sensorColors.getD (i % sensorColors.length) "" ++ "40"
          yAxisID := "y1"
          borderDash := [5, 5] }) := by
  simp only [co2Datasets, List.getElem?_map, List.getElem?_enum]
  cases s[i]? <;> rfl

/-- Counterexample to C1: in the concrete store `cs1` the timeline has two
instants, but sensor `"a"`, which has a reading at only one of them, gets a
temperature dataset of length 1 with no absent marker, so not every dataset
has the same length as the timeline. -/
theorem timeline_projection_counterexample :
    (uniqueTimestamps cs1).length = 2 ∧
    ∃ d ∈ temperatureChartDatasets cs1 (uniqueTimestamps cs1),
      d.data.length ≠ (uniqueTimestamps cs1).length := by
  decide

/-- The filter-then-map of a metric over a buffer emits one value per
reading at a timeline instant, each the value of an actual such reading. -/
theorem filterToTimeline_map_values (buf : List Reading) (tl : List Nat)
    (f : Reading → Int) :
    ((filterToTimeline buf tl).map f).length =
      buf.countP (fun r => tl.any (fun t => t == r.timestamp)) ∧
    ∀ v ∈ (filterToTimeline buf tl).map f,
      ∃ r, r ∈ buf ∧ r.timestamp ∈ tl ∧ v = f r := by
  constructor
  · simp only [filterToTimeline, List.length_map, List.countP_eq_length_filter]
  · intro v hv
    simp only [List.mem_map] at hv
    obtain ⟨r, hr, hrv⟩ := hv
    rw [filterToTimeline, List.mem_filter] at hr
    refine ⟨r, hr.1, ?_, hrv.symm⟩
    rcases List.any_eq_true.mp hr.2 with ⟨t, ht, hteq⟩
    rw [beq_iff_eq] at hteq
    exact hteq ▸ ht

/-- Claim C1 amended: each of a sensor's datasets — temperature in the
temperature chart, humidity and CO2 in the humidity/CO2 chart — is the
sequence of values of the sensor's readings whose timestamps occur in the
timeline, in buffer order: its length is the number of such readings (not
the timeline length), and every emitted value is an actual reading's value
at a timeline instant — nothing is interpolated, carried forward, or padded
with an absent marker. -/
theorem chart_values_match_readings (s : Store) (i : Nat) (sid : String)
    (buf : List Reading) (h : s[i]? = some (sid, buf)) :
    (∃ d, (temperatureChartDatasets s (uniqueTimestamps s))[i]? = some d ∧
      d.data.length =
        buf.countP (fun r => (uniqueTimestamps s).any (fun t => t == r.timestamp)) ∧
      ∀ v ∈ d.data, ∃ r, r ∈ buf ∧ r.timestamp ∈ uniqueTimestamps s ∧
        v = r.temperature) ∧
    (∃ dh, (humidityChartDatasets s (uniqueTimestamps s))[i]? = some dh ∧
      dh.data.length =
        buf.countP (fun r => (uniqueTimestamps s).any (fun t => t == r.timestamp)) ∧
      ∀ v ∈ dh.data, ∃ r, r ∈ buf ∧ r.timestamp ∈ uniqueTimestamps s ∧
        v = r.humidity) ∧
    (∃ dc, (humidityChartDatasets s (uniqueTimestamps s))[s.length + i]? = some dc ∧
      dc.data.length =
        buf.countP (fun r => (uniqueTimestamps s).any (fun t => t == r.timestamp)) ∧
      ∀ v ∈ dc.data, ∃ r, r ∈ buf ∧ r.timestamp ∈ uniqueTimestamps s ∧
        v = r.co2) := by
  have hi : i < s.length := by
    by_contra hge
    rw [List.getElem?_eq_none (Nat.le_of_not_lt hge)] at h
    exact Option.noConfusion h
  have hhlen : (humidityDatasets s (uniqueTimestamps s)).length = s.length := by
    simp [humidityDatasets, List.length_map, List.enum_length]
  have h1 := temperatureChartDatasets_getElem? s (uniqueTimestamps s) i
  rw [h, Option.map_some'] at h1
  have h2 := humidityDatasets_getElem? s (uniqueTimestamps s) i
  rw [h, Option.map_some'] at h2
  have h3 := co2Datasets_getElem? s (uniqueTimestamps s) i
  rw [h, Option.map_some'] at h3
  have hh2 : (humidityChartDatasets s (uniqueTimestamps s))[i]?
      = (humidityDatasets s (uniqueTimestamps s))[i]? := by
    rw [humidityChartDatasets]
    exact List.getElem?_append_left (by rw [hhlen]; exact hi)
  have hc2 : (humidityChartDatasets s (uniqueTimestamps s))[s.length + i]?
      = (co2Datasets s (uniqueTimestamps s))[i]? := by
    rw [humidityChartDatasets]
    rw [List.getElem?_append_right (by rw [hhlen]; omega)]
    rw [hhlen]
    congr 1
    omega
  refine ⟨⟨_, h1, ?_, ?_⟩,
    ⟨_, by rw [hh2]; exact h2, ?_, ?_⟩,
    ⟨_, by rw [hc2]; exact h3, ?_, ?_⟩⟩
  · exact (filterToTimeline_map_values buf (uniqueTimestamps s) Reading.temperature).1
  · exact (filterToTimeline_map_values buf (uniqueTimestamps s) Reading.temperature).2
  · exact (filterToTimeline_map_values buf (uniqueTimestamps s) Reading.humidity).1
  · exact (filterToTimeline_map_values buf (uniqueTimestamps s) Reading.humidity).2
  · exact (filterToTimeline_map_values buf (uniqueTimestamps s) Reading.co2).1
  · exact (filterToTimeline_map_values buf (uniqueTimestamps s) Reading.co2).2

/-- Witness for the amended C1 at sensor `"a"` of the concrete store,
covering the temperature, humidity and CO2 datasets. -/
theorem chart_values_match_readings_witness :
    (∃ d, (temperatureChartDatasets cs1 (uniqueTimestamps cs1))[0]? = some d ∧
      d.data.length =
        (List.countP (fun r => (uniqueTimestamps cs1).any (fun t => t == r.timestamp))
          [(⟨1, 10, 20, 30⟩ : Reading)]) ∧
      ∀ v ∈ d.data, ∃ r, r ∈ [(⟨1, 10, 20, 30⟩ : Reading)] ∧
        r.timestamp ∈ uniqueTimestamps cs1 ∧ v = r.temperature) ∧
    (∃ dh, (humidityChartDatasets cs1 (uniqueTimestamps cs1))[0]? = some dh ∧
      dh.data.length =
        (List.countP (fun r => (uniqueTimestamps cs1).any (fun t => t == r.timestamp))
          [(⟨1, 10, 20, 30⟩ : Reading)]) ∧
      ∀ v ∈ dh.data, ∃ r, r ∈ [(⟨1, 10, 20, 30⟩ : Reading)] ∧
        r.timestamp ∈ uniqueTimestamps cs1 ∧ v = r.humidity) ∧
    (∃ dc, (humidityChartDatasets cs1 (uniqueTimestamps cs1))[cs1.length + 0]? = some dc ∧
      dc.data.length =
        (List.countP (fun r => (uniqueTimestamps cs1).any (fun t => t == r.timestamp))
          [(⟨1, 10, 20, 30⟩ : Reading)]) ∧
      ∀ v ∈ dc.data, ∃ r, r ∈ [(⟨1, 10, 20, 30⟩ : Reading)] ∧
        r.timestamp ∈ uniqueTimestamps cs1 ∧ v = r.co2) :=
  chart_values_match_readings cs1 0 "a" [⟨1, 10, 20, 30⟩] (by decide)

/-- Claim C8: two stores with the same sensors in the same first-seen order
receive identical color assignments from the dataset builder, regardless of
buffer contents or timeline, and the i-th first-seen sensor always gets
palette entry `i mod 8` of the fixed 8-color palette. -/
theorem color_assignment_deterministic (s₁ s₂ : Store) (tl₁ tl₂ : List Nat)
    (h : s₁.map Prod.fst = s₂.map Prod.fst) :
    (temperatureChartDatasets s₁ tl₁).map ChartDataset.borderColor =
      (temperatureChartDatasets s₂ tl₂).map ChartDataset.borderColor ∧
    sensorColors.length = 8 ∧
    ∀ i, i < s₁.length →
      ((temperatureChartDatasets s₁ tl₁)[i]?).map ChartDataset.borderColor =
        some (sensorColors.getD (i % 8) "") := by
  have hlen : s₁.length = s₂.length := by
    have hc := congrArg List.length h
    simpa using hc
  refine ⟨?_, rfl, ?_⟩
  · apply List.ext_getElem?
    intro n
    rw [List.getElem?_map, List.getElem?_map,
      temperatureChartDatasets_getElem?, temperatureChartDatasets_getElem?]
    rcases Nat.lt_or_ge n s₁.length with hn | hn
    · rw [List.getElem?_eq_getElem hn, List.getElem?_eq_getElem (hlen ▸ hn)]
      rfl
    · rw [List.getElem?_eq_none hn, List.getElem?_eq_none (hlen ▸ hn)]
      rfl
  · intro i hi
    rw [temperatureChartDatasets_getElem?, List.getElem?_eq_getElem hi]
    rfl

/-- Witness for C8 at two concrete stores sharing the key order `a, b`. -/
theorem color_assignment_deterministic_witness :
    (temperatureChartDatasets cs8a []).map ChartDataset.borderColor =
      (temperatureChartDatasets cs8b [7]).map ChartDataset.borderColor ∧
    sensorColors.length = 8 ∧
    ∀ i, i < cs8a.length →
      ((temperatureChartDatasets cs8a [])[i]?).map ChartDataset.borderColor =
        some (sensorColors.getD (i % 8) "") :=
  color_assignment_deterministic cs8a cs8b [] [7] (by decide)

/-- Claim C9: for a store containing sensor `sid` at position `i`, the
humidity/CO2 chart's dataset list has all humidity datasets first and all
CO2 datasets second (sensors in first-seen order inside each group, so the
two datasets of sensor `i` sit at positions `i` and `length + i`), the two
share the sensor-name label prefix, humidity is on axis `y`, and CO2 is on
axis `y1` with the dashed stroke `[5, 5]`. -/
theorem humidity_co2_dataset_layout (s : Store) (tl : List Nat) (i : Nat)
    (sid : String) (buf : List Reading) (h : s[i]? = some (sid, buf)) :
    (humidityChartDatasets s tl).length = 2 * s.length ∧
    ∃ dh dc,
      (humidityChartDatasets s tl)[i]? = some dh ∧
      (humidityChartDatasets s tl)[s.length + i]? = some dc ∧
      dh.label = getSensorName sid ++ " - Humidity" ∧
      dc.label = getSensorName sid ++ " - CO₂" ∧
      dh.yAxisID = "y" ∧ dc.yAxisID = "y1" ∧
      dh.borderDash = [] ∧ dc.borderDash = [5, 5] ∧
      dh.borderColor = dc.borderColor ∧
      dh.data = (filterToTimeline buf tl).map Reading.humidity ∧
      dc.data = (filterToTimeline buf tl).map Reading.co2 := by
  have hi : i < s.length := by
    by_contra hge
    rw [List.getElem?_eq_none (Nat.le_of_not_lt hge)] at h
    exact Option.noConfusion h
  have hhlen : (humidityDatasets s tl).length = s.length := by
    simp [humidityDatasets, List.length_map, List.enum_length]
  have hclen : (co2Datasets s tl).length = s.length := by
    simp [co2Datasets, List.length_map, List.enum_length]
  have hlen2 : (humidityChartDatasets s tl).length = 2 * s.length := by
    rw [humidityChartDatasets, List.length_append, hhlen, hclen]
    omega
  have hdh := humidityDatasets_getElem? s tl i
  rw [h, Option.map_some'] at hdh
  have hdc := co2Datasets_getElem? s tl i
  rw [h, Option.map_some'] at hdc
  have hdh2 : (humidityChartDatasets s tl)[i]? = (humidityDatasets s tl)[i]? := by
    rw [humidityChartDatasets]
    exact List.getElem?_append_left (by rw [hhlen]; exact hi)
  have hdc2 : (humidityChartDatasets s tl)[s.length + i]? = (co2Datasets s tl)[i]? := by
    rw [humidityChartDatasets]
    rw [List.getElem?_append_right (by rw [hhlen]; omega)]
    rw [hhlen]
    congr 1
    omega
  refine ⟨hlen2,
    { label := getSensorName sid ++ " - Humidity"
      data := (filterToTimeline buf tl).map Reading.humidity
      borderColor := sensorColors.getD (i % sensorColors.length) ""
      backgroundColor := sensorColors.getD (i % sensorColors.length) "" ++ "20"
      yAxisID := "y"
      borderDash := [] },
    { label := getSensorName sid ++ " - CO₂"
      data := (filterToTimeline buf tl).map Reading.co2
      borderColor := sensorColors.getD (i % sensorColors.length) ""
      backgroundColor := sensorColors.getD (i % sensorColors.length) "" ++ "40"
      yAxisID := "y1"
      borderDash := [5, 5] },
    ?_, ?_, rfl, rfl, rfl, rfl, rfl, rfl, rfl, rfl, rfl⟩
  · rw [hdh2]
    exact hdh
  · rw [hdc2]
    exact hdc

/-- Witness for C9 at sensor `"a"` of the concrete store with timeline `[1]`. -/
theorem humidity_co2_dataset_layout_witness :
    (humidityChartDatasets cs1 [1]).length = 2 * cs1.length ∧
    ∃ dh dc,
      (humidityChartDatasets cs1 [1])[0]? = some dh ∧
      (humidityChartDatasets cs1 [1])[cs1.length + 0]? = some dc ∧
      dh.label = getSensorName "a" ++ " - Humidity" ∧
      dc.label = getSensorName "a" ++ " - CO₂" ∧
      dh.yAxisID = "y" ∧ dc.yAxisID = "y1" ∧
      dh.borderDash = [] ∧ dc.borderDash = [5, 5] ∧
      dh.borderColor = dc.borderColor ∧
      dh.data = (filterToTimeline [(⟨1, 10, 20, 30⟩ : Reading)] [1]).map Reading.humidity ∧
      dc.data = (filterToTimeline [(⟨1, 10, 20, 30⟩ : Reading)] [1]).map Reading.co2 :=
  humidity_co2_dataset_layout cs1 [1] 0 "a" [⟨1, 10, 20, 30⟩] (by decide)

/-- Counterexample to C4: a reading event with no `data` field makes the
handler throw (it does not complete normally) after creating an empty buffer
for the event's sensor id — a partial state change, not a clean drop. -/
theorem malformed_event_counterexample :
    (handleRealtimeData malformedPayload []).2 = false ∧
    (handleRealtimeData malformedPayload []).1 ≠ [] := by
  decide

/-- Claim C4 amended: a malformed reading event makes `handleRealtimeData`
throw a TypeError rather than drop cleanly; before throwing it creates an
empty buffer for the event's sensor id when absent (every other sensor's
buffer is untouched, and no reading is appended), and a malformed alert
event likewise throws at the `severity` access. -/
theorem malformed_reading_throws (p : RtPayload) (s : Store)
    (hw : rtMalformed p = true) :
    (handleRealtimeData p s).2 = false ∧
    storeGet (handleRealtimeData p s).1 p.sensor_id =
      some ((storeGet s p.sensor_id).getD []) ∧
    (∀ k', k' ≠ p.sensor_id →
      storeGet (handleRealtimeData p s).1 k' = storeGet s k') ∧
    (∀ (al : List AlertRec) (a : AlertRec), a.severity = none →
      (handleNewAlert al a).2 = false) := by
  have hres : (handleRealtimeData p s).1 =
      (if (storeGet s p.sensor_id).isNone then storeSet s p.sensor_id [] else s) ∧
      (handleRealtimeData p s).2 = false := by
    rcases hp : p.data with _ | i
    · simp [handleRealtimeData, hp]
    · rcases hf : i.fields with _ | f
      · simp [handleRealtimeData, hp, hf]
      · simp [rtMalformed, hp, hf] at hw
  refine ⟨hres.2, ?_, ?_, ?_⟩
  · rw [hres.1]
    by_cases hg : (storeGet s p.sensor_id).isNone
    · have hnone : storeGet s p.sensor_id = none := Option.isNone_iff_eq_none.mp hg
      rw [if_pos hg, storeGet_storeSet_self, hnone]
      rfl
    · rw [if_neg hg]
      rcases ho : storeGet s p.sensor_id with _ | b
      · exact absurd (show (storeGet s p.sensor_id).isNone = true by rw [ho]; rfl) hg
      · rfl
  · intro k' hk'
    rw [hres.1]
    by_cases hg : (storeGet s p.sensor_id).isNone
    · rw [if_pos hg]
      exact storeGet_storeSet_ne s p.sensor_id k' [] hk'
    · rw [if_neg hg]
  · intro al a ha
    simp [handleNewAlert, ha]

/-- Witness for the amended C4 at the concrete malformed payload. -/
theorem malformed_reading_throws_witness :
    (handleRealtimeData malformedPayload cs8a).2 = false ∧
    storeGet (handleRealtimeData malformedPayload cs8a).1 malformedPayload.sensor_id =
      some ((storeGet cs8a malformedPayload.sensor_id).getD []) ∧
    (∀ k', k' ≠ malformedPayload.sensor_id →
      storeGet (handleRealtimeData malformedPayload cs8a).1 k' = storeGet cs8a k') ∧
    (∀ (al : List AlertRec) (a : AlertRec), a.severity = none →
      (handleNewAlert al a).2 = false) :=
  malformed_reading_throws malformedPayload cs8a (by decide)

/-- Counterexample to C5: the disconnect event moves the monitor to STALE
but issues no bulk resync on entry; `loadInitialData` is only invoked by the
30-second interval tick. -/
theorem liveness_entry_counterexample :
    (dashStep ⟨true⟩ DashEvent.disconnectEv).1.isConnected = false ∧
    (dashStep ⟨true⟩ DashEvent.disconnectEv).2 = false := by
  decide

/-- Claim C5 amended: a disconnect event moves the monitor to STALE without
issuing a resync at that moment; while STALE every 30-second health-check
tick issues a resync (and ticks while LIVE issue none); a connect event
returns the monitor to LIVE immediately — the transition consults nothing
but the event, so it is independent of any in-flight resync. -/
theorem liveness_monitor_behavior (st : ConnState) :
    (dashStep st DashEvent.disconnectEv).1.isConnected = false ∧
    (dashStep st DashEvent.disconnectEv).2 = false ∧
    (dashStep ⟨false⟩ DashEvent.tick).2 = true ∧
    (dashStep ⟨false⟩ DashEvent.tick).1.isConnected = false ∧
    (dashStep ⟨true⟩ DashEvent.tick).2 = false ∧
    (dashStep st DashEvent.connectEv).1.isConnected = true ∧
    healthCheckIntervalMs = 30000 :=
  ⟨rfl, rfl, rfl, rfl, rfl, rfl, rfl⟩

/-- Counterexample to C6's stated mechanism: a resync whose payload lists no
sensors leaves a previously stored buffer in place — the handler does not
replace the Series Store buffers with the payload's content. -/
theorem resync_replace_counterexample :
    emptySensorsPayload.sensors = some [] ∧
    (handleInitialData emptySensorsPayload stWithBuffer).sensorsData ≠ [] := by
  decide

/-- Claim C6 amended: applying the resync handler twice yields the same
Series Store and alert list as applying it once — but because the handler
never modifies the per-sensor buffers at all (it neither replaces nor
appends them); only the alert list (modelled from the spec) is replaced. -/
theorem resync_idempotent_untouched_buffers (d : InitialData) (st : DashState) :
    handleInitialData d (handleInitialData d st) = handleInitialData d st ∧
    (handleInitialData d st).sensorsData = st.sensorsData := by
  rcases ha : d.alerts with _ | as'
  · simp [handleInitialData, ha]
  · simp [handleInitialData, ha, updateAlerts]

/-- Claim C10: any status string other than NORMAL, WARNING, CRITICAL —
including the MALFUNCTION value readings may carry — makes the system-status
update fall back to the NORMAL configuration with the text
'All Systems Operating Normally'; the input is never rejected. -/
theorem unknown_status_shows_normal (status : String)
    (h1 : status ≠ "NORMAL") (h2 : status ≠ "WARNING") (h3 : status ≠ "CRITICAL") :
    updateSystemStatus status = normalStatusConfig ∧
    (updateSystemStatus status).text = "All Systems Operating Normally" := by
  have hl : statusConfigLookup status = none := by
    simp [statusConfigLookup, h1, h2, h3]
  rw [updateSystemStatus, hl]
  exact ⟨rfl, rfl⟩

/-- Witness for C10 at the MALFUNCTION status value. -/
theorem unknown_status_shows_normal_witness :
    updateSystemStatus "MALFUNCTION" = normalStatusConfig ∧
    (updateSystemStatus "MALFUNCTION").text = "All Systems Operating Normally" :=
  unknown_status_shows_normal "MALFUNCTION" (by decide) (by decide) (by decide)
